import Mathlib

/-!
Shallow embedding of the Data Access Service of `mcp_server.py` and the
agent-facing tool adapter of `service_tools.py`.

Modelling conventions:
* Timestamps (ISO-8601 UTC strings produced by `datetime.now(datetime.UTC)`)
  are modelled as a logical clock `now : Nat`; the ordering of ISO strings
  produced by a monotone wall clock agrees with the numeric ordering.
* The SQLite store is a `Store` value threaded explicitly through every
  operation.  `AUTOINCREMENT` of `support_tickets.ticket_id` is modelled by
  the `nextTicketId` counter (`cursor.lastrowid` of the INSERT).
* SQLite stores dynamically typed values; columns that caller input can
  populate with a non-TEXT/INTEGER mix (`account_id`, `description` of a
  ticket) are `SqlVal`.  An integer `?`-parameter never matches a TEXT value
  and vice versa, exactly as SQLite compares values of different storage
  classes as unequal.
* Python-level dynamic arguments reaching the dispatcher through
  `POST /call` are modelled by `PyValue` (the JSON values the operations
  consume: integers, strings, and string-valued objects).  Keyword binding
  of `handler(**kwargs)` raises `TypeError` on unexpected or missing keys,
  before the handler body runs; these Python exceptions are modelled by
  `Except PyExc`.
-/

/-- SQLite value stored in a dynamically typed column. -/
inductive SqlVal where
  | i : Int → SqlVal
  | s : String → SqlVal
deriving DecidableEq, Repr

/-- Row of the `customer_accounts` table. -/
structure Account where
  identifier : Int
  full_name : String
  contact_email : String
  contact_phone : String
  account_status : String
  creation_timestamp : Nat
  last_modified_timestamp : Nat
deriving DecidableEq, Repr

/-- Row of the `support_tickets` table. -/
structure Ticket where
  ticket_id : Nat
  account_id : SqlVal
  description : SqlVal
  status : String
  priority_level : String
  submission_timestamp : Nat
deriving DecidableEq, Repr

/-- The whole SQLite database `service_db.sqlite`. -/
structure Store where
  accounts : List Account
  tickets : List Ticket
  nextTicketId : Nat
deriving DecidableEq, Repr

/-- Payload carried in the `data` field of an operation result. -/
inductive ResultData where
  | account : Account → ResultData
  | accounts : List Account → ResultData
  | ticket : Ticket → ResultData
  | tickets : List Ticket → ResultData
deriving DecidableEq, Repr

/-- The uniform result dictionary every operation returns: keys absent from
the Python dict are `none`. -/
structure Envelope where
  success : Bool
  data : Option ResultData := none
  error : Option String := none
  total_count : Option Nat := none
deriving DecidableEq, Repr

/-- A raised Python exception: `kind` is `type(e).__name__`, `msg` is `str(e)`. -/
structure PyExc where
  kind : String
  msg : String
deriving DecidableEq, Repr

/-- Dynamically typed Python/JSON value passed in `params` of `POST /call`. -/
inductive PyValue where
  | int : Int → PyValue
  | str : String → PyValue
  | dict : List (String × String) → PyValue
deriving DecidableEq, Repr

/-- Well-formedness of the store: account identifiers are unique (PRIMARY
KEY) and every existing ticket id is below the AUTOINCREMENT counter. -/
def Store.WF (st : Store) : Prop :=
  (st.accounts.map Account.identifier).Nodup ∧
    ∀ t ∈ st.tickets, t.ticket_id < st.nextTicketId

instance (st : Store) : Decidable st.WF := by
  unfold Store.WF; infer_instance

/-- MCP operation `get_customer` (`_fetch_customer_record`): SELECT by
identifier; found row or a not-found error envelope. -/
def _fetch_customer_record (customer_id : Int) (st : Store) : Envelope × Store :=
  match st.accounts.find? (fun a => a.identifier == customer_id) with
  | some row => ({ success := true, data := some (.account row) }, st)
  | none =>
      ({ success := false,
         error := some ("Account with ID " ++ toString customer_id ++ " not found") }, st)

/-- LIMIT clause of SQLite: a negative limit means no limit. -/
def limitRows (rows : List Account) (limit : Int) : List Account :=
  if limit < 0 then rows else rows.take limit.toNat

/-- MCP operation `list_customers` (`_search_customer_records`): optional
status filter (Python truthiness: `None` and `""` disable it), LIMIT. -/
def _search_customer_records (status : Option String) (limit : Int) (st : Store) :
    Envelope × Store :=
  let rows :=
    match status with
    | some s =>
        if s = "" then limitRows st.accounts limit
        else limitRows (st.accounts.filter (fun a => a.account_status == s)) limit
    | none => limitRows st.accounts limit
  ({ success := true, data := some (.accounts rows), total_count := some rows.length }, st)

/-- Whitelist of updatable columns of `_modify_customer_details`. -/
def valid_fields : List String :=
  ["full_name", "contact_email", "contact_phone", "account_status"]

/-- One `k=?` fragment of the UPDATE's SET clause applied to a row; a key
outside the whitelist never reaches this point but is a no-op anyway. -/
def setField (a : Account) (kv : String × String) : Account :=
  if kv.1 = "full_name" then { a with full_name := kv.2 }
  else if kv.1 = "contact_email" then { a with contact_email := kv.2 }
  else if kv.1 = "contact_phone" then { a with contact_phone := kv.2 }
  else if kv.1 = "account_status" then { a with account_status := kv.2 }
  else a

/-- Effect of the whole UPDATE statement on the matching row: every SET
fragment in order, then `last_modified_timestamp=?` with the current time. -/
def applyUpdates (a : Account) (updates : List (String × String)) (now : Nat) : Account :=
  { updates.foldl setField a with last_modified_timestamp := now }

/-- MCP operation `update_customer` (`_modify_customer_details`): filter
`data` against the whitelist, reject an empty update set, otherwise UPDATE
the matching row and re-SELECT it. -/
def _modify_customer_details (customer_id : Int) (data : List (String × String))
    (now : Nat) (st : Store) : Envelope × Store :=
  let updates := data.filter (fun kv => valid_fields.contains kv.1)
  if updates.isEmpty then
    ({ success := false, error := some "No valid fields provided for update." }, st)
  else
    let accounts' := st.accounts.map
      (fun a => if a.identifier == customer_id then applyUpdates a updates now else a)
    let st' : Store := { st with accounts := accounts' }
    match accounts'.find? (fun a => a.identifier == customer_id) with
    | some row => ({ success := true, data := some (.account row) }, st')
    | none =>
        ({ success := false,
           error := some ("Account " ++ toString customer_id ++
             " not found or update failed.") }, st')

/-- Python `str.lower()` modelled character-wise (kernel-reducible, unlike
`String.toLower`); agrees with it on the ASCII priorities involved. -/
def pyLower (s : String) : String := ⟨s.data.map Char.toLower⟩

/-- The INSERT of `_register_new_ticket` followed by the re-SELECT of the
`lastrowid`; `account_id` and `description` keep whatever storage class the
caller's values bind to. -/
def insertTicketRow (account_id description : SqlVal) (normalized_priority : String)
    (now : Nat) (st : Store) : Envelope × Store :=
  let t : Ticket :=
    { ticket_id := st.nextTicketId, account_id := account_id,
      description := description, status := "open",
      priority_level := normalized_priority, submission_timestamp := now }
  let st' : Store :=
    { st with tickets := st.tickets ++ [t], nextTicketId := st.nextTicketId + 1 }
  match st'.tickets.find? (fun r => r.ticket_id == st.nextTicketId) with
  | some row => ({ success := true, data := some (.ticket row) }, st')
  | none =>
      ({ success := false, error := some "Database error: Failed to log new ticket." }, st')

/-- MCP operation `create_ticket` (`_register_new_ticket`): validate the
lowercased priority, INSERT the row, re-SELECT it by `lastrowid`. -/
def _register_new_ticket (customer_id : Int) (issue : String) (priority : String)
    (now : Nat) (st : Store) : Envelope × Store :=
  let normalized_priority := pyLower priority
  if ¬ (["low", "medium", "high"].contains normalized_priority) then
    ({ success := false,
       error := some "Priority must be \x27low\x27, \x27medium\x27, or \x27high\x27." }, st)
  else
    insertTicketRow (.i customer_id) (.s issue) normalized_priority now st

/-- Ordering used by `ORDER BY submission_timestamp DESC`. -/
def tsDesc (a b : Ticket) : Bool :=
  b.submission_timestamp ≤ a.submission_timestamp

/-- MCP operation `get_customer_history` (`_retrieve_ticket_history`):
SELECT all tickets of the account, newest submission first. -/
def _retrieve_ticket_history (customer_id : Int) (st : Store) : Envelope × Store :=
  let rows :=
    (st.tickets.filter (fun t => t.account_id == SqlVal.i customer_id)).mergeSort tsDesc
  ({ success := true, data := some (.tickets rows), total_count := some rows.length }, st)

/-- Seeded database produced by `initialize_database_schema` at clock `t0`. -/
def seedStore (t0 : Nat) : Store :=
  { accounts :=
      [ ⟨1, "Alice Premium", "alice@example.com", "111-111-1111", "active", t0, t0⟩,
        ⟨2, "Bob Standard", "bob@example.com", "222-222-2222", "active", t0, t0⟩,
        ⟨3, "Charlie Disabled", "charlie@example.com", "333-333-3333", "disabled", t0, t0⟩,
        ⟨4, "Diana Premium", "diana@example.com", "444-444-4444", "active", t0, t0⟩,
        ⟨5, "Eve Standard", "eve@example.com", "555-555-5555", "active", t0, t0⟩,
        ⟨12345, "Priya Patel (Premium)", "priya@example.com", "555-0999", "active", t0, t0⟩ ],
    tickets :=
      [ ⟨1, .i 1, .s "Billing duplicate charge", "open", "high", t0⟩,
        ⟨2, .i 1, .s "Unable to login", "in_progress", "medium", t0⟩,
        ⟨3, .i 2, .s "Request upgrade", "open", "low", t0⟩,
        ⟨4, .i 4, .s "Critical outage", "open", "high", t0⟩,
        ⟨5, .i 5, .s "Password reset", "open", "low", t0⟩,
        ⟨6, .i 12345, .s "Account upgrade assistance", "open", "medium", t0⟩,
        ⟨7, .i 12345, .s "High priority refund review", "open", "high", t0⟩ ],
    nextTicketId := 8 }

/-- An operation handler as invoked by the dispatcher: keyword arguments in,
either a raised Python exception or a result envelope plus the new store. -/
abbrev DynHandler :=
  List (String × PyValue) → Store → Nat → Except PyExc (Envelope × Store)

/-- Keyword binding of `handler(**kwargs)`: Python raises `TypeError` for an
unexpected keyword argument or a missing required argument, before any part
of the handler body runs. -/
def bindKwargs (required allowed : List String)
    (kwargs : List (String × PyValue)) : Except PyExc Unit :=
  match kwargs.find? (fun kv => !(allowed.contains kv.1)) with
  | some kv =>
      .error ⟨"TypeError", "got an unexpected keyword argument \x27" ++ kv.1 ++ "\x27"⟩
  | none =>
    match required.find? (fun r => !((kwargs.map Prod.fst).contains r)) with
    | some r =>
        .error ⟨"TypeError", "missing 1 required positional argument: \x27" ++ r ++ "\x27"⟩
    | none => .ok ()

/-- Storage class a bound parameter takes in SQLite (object values fail to
bind before this point, so their rendering is immaterial). -/
def sqlOf : PyValue → SqlVal
  | .int n => .i n
  | .str s => .s s
  | .dict _ => .s ""

/-- Dynamic `get_customer`: `identifier=?` never matches a TEXT value, and an
object value cannot be bound as a query parameter by sqlite3. -/
def dynGetCustomer : DynHandler := fun kwargs st _now =>
  match bindKwargs ["customer_id"] ["customer_id"] kwargs with
  | .error e => .error e
  | .ok _ =>
    match (kwargs.lookup "customer_id").getD (.int 0) with
    | .int n => .ok (_fetch_customer_record n st)
    | .str s =>
        .ok ({ success := false,
               error := some ("Account with ID " ++ s ++ " not found") }, st)
    | .dict _ =>
        .error ⟨"ProgrammingError", "Error binding parameter 1: type is not supported"⟩

/-- Dynamic `list_customers`: Python truthiness decides whether the status
filter applies; a non-integer LIMIT is a datatype mismatch in SQLite. -/
def dynListCustomers : DynHandler := fun kwargs st _now =>
  match bindKwargs [] ["status", "limit"] kwargs with
  | .error e => .error e
  | .ok _ =>
    match (kwargs.lookup "limit").getD (.int 100) with
    | .int lim =>
      match kwargs.lookup "status" with
      | none => .ok (_search_customer_records none lim st)
      | some (.str s) => .ok (_search_customer_records (some s) lim st)
      | some (.int k) =>
          if k == 0 then .ok (_search_customer_records none lim st)
          else
            .ok ({ success := true, data := some (.accounts []),
                   total_count := some 0 }, st)
      | some (.dict d) =>
          if d.isEmpty then .ok (_search_customer_records none lim st)
          else .error ⟨"ProgrammingError", "Error binding parameter 1: type is not supported"⟩
    | .str _ => .error ⟨"OperationalError", "datatype mismatch"⟩
    | .dict _ => .error ⟨"ProgrammingError", "Error binding parameter 2: type is not supported"⟩

/-- Dynamic `update_customer`: `data.items()` needs a mapping; a TEXT
`customer_id` matches no INTEGER identifier, so the re-SELECT fails. -/
def dynUpdateCustomer : DynHandler := fun kwargs st now =>
  match bindKwargs ["customer_id", "data"] ["customer_id", "data"] kwargs with
  | .error e => .error e
  | .ok _ =>
    match (kwargs.lookup "data").getD (.int 0) with
    | .dict entries =>
      let updates := entries.filter (fun kv => valid_fields.contains kv.1)
      if updates.isEmpty then
        .ok ({ success := false, error := some "No valid fields provided for update." }, st)
      else
        match (kwargs.lookup "customer_id").getD (.int 0) with
        | .int n => .ok (_modify_customer_details n entries now st)
        | .str s =>
            .ok ({ success := false,
                   error := some ("Account " ++ s ++ " not found or update failed.") }, st)
        | .dict _ =>
            .error ⟨"ProgrammingError", "Error binding parameter: type is not supported"⟩
    | .int _ => .error ⟨"AttributeError", "\x27int\x27 object has no attribute \x27items\x27"⟩
    | .str _ => .error ⟨"AttributeError", "\x27str\x27 object has no attribute \x27items\x27"⟩

/-- Dynamic `create_ticket`: `priority.lower()` needs a string; the INSERT
stores dynamically typed `customer_id`/`issue` values as given, while object
values fail to bind. -/
def dynCreateTicket : DynHandler := fun kwargs st now =>
  match bindKwargs ["customer_id", "issue"] ["customer_id", "issue", "priority"] kwargs with
  | .error e => .error e
  | .ok _ =>
    match (kwargs.lookup "priority").getD (.str "medium") with
    | .int _ => .error ⟨"AttributeError", "\x27int\x27 object has no attribute \x27lower\x27"⟩
    | .dict _ => .error ⟨"AttributeError", "\x27dict\x27 object has no attribute \x27lower\x27"⟩
    | .str p =>
      if ¬ (["low", "medium", "high"].contains (pyLower p)) then
        .ok ({ success := false,
               error := some "Priority must be \x27low\x27, \x27medium\x27, or \x27high\x27." }, st)
      else
        match (kwargs.lookup "customer_id").getD (.int 0),
              (kwargs.lookup "issue").getD (.str "") with
        | .dict _, _ =>
            .error ⟨"ProgrammingError", "Error binding parameter 1: type is not supported"⟩
        | _, .dict _ =>
            .error ⟨"ProgrammingError", "Error binding parameter 2: type is not supported"⟩
        | cid, issue => .ok (insertTicketRow (sqlOf cid) (sqlOf issue) (pyLower p) now st)

/-- Dynamic `get_customer_history`: `account_id=?` compares by storage
class, so a TEXT id only matches TEXT `account_id` values. -/
def dynGetCustomerHistory : DynHandler := fun kwargs st _now =>
  match bindKwargs ["customer_id"] ["customer_id"] kwargs with
  | .error e => .error e
  | .ok _ =>
    match (kwargs.lookup "customer_id").getD (.int 0) with
    | .int n => .ok (_retrieve_ticket_history n st)
    | .str s =>
        let rows := (st.tickets.filter (fun t => t.account_id == SqlVal.s s)).mergeSort tsDesc
        .ok ({ success := true, data := some (.tickets rows),
               total_count := some rows.length }, st)
    | .dict _ =>
        .error ⟨"ProgrammingError", "Error binding parameter 1: type is not supported"⟩

/-- The `self.operations` dispatch dictionary of `DataAccessService`. -/
def operations : List (String × DynHandler) :=
  [ ("get_customer", dynGetCustomer),
    ("list_customers", dynListCustomers),
    ("update_customer", dynUpdateCustomer),
    ("create_ticket", dynCreateTicket),
    ("get_customer_history", dynGetCustomerHistory) ]

/-- The recognized operation names, in dictionary order. -/
def opNames : List String := operations.map Prod.fst

/-- `DataAccessService.execute_operation`: unknown names are rejected before
any handler runs; any exception a handler raises is caught and converted to
a uniform failure envelope, leaving the store as it was. -/
def execute_operation (operation_name : String) (kwargs : List (String × PyValue))
    (st : Store) (now : Nat) : Envelope × Store :=
  match operations.lookup operation_name with
  | none =>
      ({ success := false,
         error := some ("Unknown database operation: " ++ operation_name) }, st)
  | some handler =>
    match handler kwargs st now with
    | .ok result => result
    | .error e =>
        ({ success := false,
           error := some ("Operation execution failed: " ++ e.kind ++ " - " ++ e.msg) }, st)

/-- Parsed body of a `POST /call` request; the `params` key defaults to the
empty object. `none` stands for a body `request.json()` cannot parse. -/
structure RpcRequest where
  tool : String
  params : List (String × PyValue)
deriving DecidableEq, Repr

/-- An HTTP response of the `/call` route. -/
structure HttpResponse where
  status : Nat
  body : Envelope
deriving DecidableEq, Repr

/-- `call_operation_handler` behind `POST /call`: the `try` spans both the
body parse and the dispatcher call itself, so a `params` key colliding with
an argument already bound at `data_service.execute_operation(op_name,
**op_params)` — `operation_name` or `self` — raises `TypeError` at that
call site and is answered with HTTP 400 "Invalid request format: ...".
Any other parseable body is delegated and always answered with HTTP 200;
an unparseable body also yields HTTP 400. -/
def call_operation_handler (request : Option RpcRequest) (st : Store) (now : Nat) :
    HttpResponse × Store :=
  match request with
  | none =>
      ({ status := 400,
         body := { success := false,
                   error := some "Invalid request format: request body is not valid JSON" } },
        st)
  | some req =>
      match req.params.find? (fun kv => kv.1 == "operation_name" || kv.1 == "self") with
      | some kv =>
          ({ status := 400,
             body := { success := false,
                       error := some ("Invalid request format: DataAccessService.execute_operation() got multiple values for argument \x27"
                         ++ kv.1 ++ "\x27") } },
            st)
      | none =>
          let result := execute_operation req.tool req.params st now
          ({ status := 200, body := result.1 }, result.2)

/-- A request the tool adapter sends to the MCP endpoint. -/
structure SentRequest where
  tool : String
  params : List (String × PyValue)
deriving DecidableEq, Repr

/-- Stringification of a successful result for the LLM, standing in for
`json.dumps(returned_data, indent=2)` (or `str` of a non-collection). -/
def renderData : Option ResultData → String
  | some d => toString (repr d)
  | none => "None"

/-- Adapter core `_execute_mcp_operation` of `service_tools.py`: POST the
tool call to `/call`, stringify the envelope as the LLM-facing text, and
record the request that went over the wire. -/
def _execute_mcp_operation (operation_name : String)
    (parameters : List (String × PyValue)) (st : Store) (now : Nat) :
    (String × Store) × List SentRequest :=
  let resp := call_operation_handler (some ⟨operation_name, parameters⟩) st now
  let text :=
    if resp.1.status != 200 then "Service Execution Failure: HTTP status error"
    else if resp.1.body.success then renderData resp.1.body.data
    else "Operation Error: " ++ (resp.1.body.error.getD "Unknown service error")
  ((text, resp.2), [⟨operation_name, parameters⟩])

/-- Adapter `modify_customer_record`: `json.loads` is the supplied decoder
(`none` models a `JSONDecodeError`); on parse failure the adapter answers
with a parsing-error string and sends nothing to the endpoint. -/
def modify_customer_record (json_loads : String → Option (List (String × String)))
    (customer_id : Int) (update_payload : String) (st : Store) (now : Nat) :
    (String × Store) × List SentRequest :=
  match json_loads update_payload with
  | none =>
      (("Parsing Error: The provided data for update must be a valid JSON string.", st), [])
  | some payload_dict =>
      _execute_mcp_operation "update_customer"
        [("customer_id", .int customer_id), ("data", .dict payload_dict)] st now

/-- Required keyword parameters of each operation handler's signature. -/
def requiredParams : String → List String
  | "get_customer" => ["customer_id"]
  | "list_customers" => []
  | "update_customer" => ["customer_id", "data"]
  | "create_ticket" => ["customer_id", "issue"]
  | "get_customer_history" => ["customer_id"]
  | _ => []

/-- All keyword parameters each operation handler's signature accepts. -/
def allowedParams : String → List String
  | "get_customer" => ["customer_id"]
  | "list_customers" => ["status", "limit"]
  | "update_customer" => ["customer_id", "data"]
  | "create_ticket" => ["customer_id", "issue", "priority"]
  | "get_customer_history" => ["customer_id"]
  | _ => []

lemma lookup_eq_none_of_not_mem (name : String) (h : name ∉ opNames) :
    operations.lookup name = none := by
  rw [List.lookup_eq_none_iff]
  intro p hp
  have hmem : p.1 ∈ opNames := List.mem_map_of_mem Prod.fst hp
  simp only [bne_iff_ne, ne_eq]
  intro hEq
  exact h (hEq ▸ hmem)

lemma find?_collision_eq_none (kwargs : List (String × PyValue))
    (hkeys : ∀ kv ∈ kwargs, kv.1 ≠ "operation_name" ∧ kv.1 ≠ "self") :
    kwargs.find? (fun kv => kv.1 == "operation_name" || kv.1 == "self") = none := by
  rw [List.find?_eq_none]
  intro kv hkv
  have hk := hkeys kv hkv
  simp [hk.1, hk.2]

/-- C8 as stated is refuted: with a params key colliding with the
`operation_name` argument of the dispatcher call, the call site raises
`TypeError` inside the route handler's `try`, so the endpoint answers
HTTP 400 "Invalid request format: ...", not HTTP 200 with the
unknown-operation envelope. -/
theorem C8_counterexample :
    call_operation_handler
        (some ⟨"nonexistent_op", [("operation_name", PyValue.str "x")]⟩) (seedStore 0) 0 =
      ({ status := 400,
         body := { success := false,
                   error := some "Invalid request format: DataAccessService.execute_operation() got multiple values for argument \x27operation_name\x27" } },
        seedStore 0) ∧
    (call_operation_handler
        (some ⟨"nonexistent_op", [("operation_name", PyValue.str "x")]⟩)
        (seedStore 0) 0).1.status ≠ 200 := by
  constructor
  · rfl
  · decide

/-- C8 (amended): an operation name outside the dispatch table is answered
with the unknown-operation envelope without any handler running or the
store changing, and `POST /call` returns exactly this envelope with HTTP
200 whenever no params key collides with an argument of the dispatcher
call itself (`operation_name`, `self`). -/
theorem C8_unknown_operation_rejected (name : String) (kwargs : List (String × PyValue))
    (st : Store) (now : Nat) (h : name ∉ opNames)
    (hkeys : ∀ kv ∈ kwargs, kv.1 ≠ "operation_name" ∧ kv.1 ≠ "self") :
    execute_operation name kwargs st now =
      ({ success := false,
         error := some ("Unknown database operation: " ++ name) }, st) ∧
    call_operation_handler (some ⟨name, kwargs⟩) st now =
      ({ status := 200,
         body := { success := false,
                   error := some ("Unknown database operation: " ++ name) } }, st) := by
  have hl := lookup_eq_none_of_not_mem name h
  have hcol := find?_collision_eq_none kwargs hkeys
  constructor <;> simp [execute_operation, call_operation_handler, hl, hcol]

theorem C8_witness :
    execute_operation "nonexistent_op" [] (seedStore 0) 0 =
      ({ success := false,
         error := some "Unknown database operation: nonexistent_op" }, seedStore 0) ∧
    call_operation_handler (some ⟨"nonexistent_op", []⟩) (seedStore 0) 0 =
      ({ status := 200,
         body := { success := false,
                   error := some "Unknown database operation: nonexistent_op" } },
        seedStore 0) :=
  C8_unknown_operation_rejected "nonexistent_op" [] (seedStore 0) 0 (by decide)
    (by intro kv hkv; cases hkv)

/-- C1: whenever the handler of a recognized operation raises an exception,
`execute_operation` catches it and returns the generic execution-failure
envelope built from the exception kind and message; the dispatcher itself is
total, so no exception ever reaches its caller. -/
theorem C1_dispatcher_catches_exceptions (name : String) (handler : DynHandler)
    (kwargs : List (String × PyValue)) (st : Store) (now : Nat) (e : PyExc)
    (hop : operations.lookup name = some handler)
    (herr : handler kwargs st now = .error e) :
    execute_operation name kwargs st now =
      ({ success := false,
         error := some ("Operation execution failed: " ++ e.kind ++ " - " ++ e.msg) }, st) := by
  simp [execute_operation, hop, herr]

theorem C1_witness :
    execute_operation "get_customer" [] (seedStore 0) 0 =
      ({ success := false,
         error := some
           "Operation execution failed: TypeError - missing 1 required positional argument: \x27customer_id\x27" },
        seedStore 0) :=
  C1_dispatcher_catches_exceptions "get_customer" dynGetCustomer [] (seedStore 0) 0
    ⟨"TypeError", "missing 1 required positional argument: \x27customer_id\x27"⟩ rfl rfl

/-- C4: a priority whose lowercase form is not low, medium or high makes
`create_ticket` fail with no row written: the store, in particular the
ticket list and its length, is exactly what it was. -/
theorem C4_invalid_priority_writes_nothing (customer_id : Int) (issue priority : String)
    (now : Nat) (st : Store)
    (h : pyLower priority ∉ (["low", "medium", "high"] : List String)) :
    (_register_new_ticket customer_id issue priority now st).1.success = false ∧
    (_register_new_ticket customer_id issue priority now st).2 = st ∧
    (_register_new_ticket customer_id issue priority now st).2.tickets.length =
      st.tickets.length := by
  simp only [List.mem_cons, List.not_mem_nil, or_false, not_or] at h
  obtain ⟨h1, h2, h3⟩ := h
  simp [_register_new_ticket, h1, h2, h3]

theorem C4_witness :
    (_register_new_ticket 1 "Broken again" "URGENT" 9 (seedStore 0)).1.success = false ∧
    (_register_new_ticket 1 "Broken again" "URGENT" 9 (seedStore 0)).2 = seedStore 0 ∧
    (_register_new_ticket 1 "Broken again" "URGENT" 9 (seedStore 0)).2.tickets.length =
      (seedStore 0).tickets.length :=
  C4_invalid_priority_writes_nothing 1 "Broken again" "URGENT" 9 (seedStore 0) (by decide)

lemma find?_append_singleton_pos {l : List Ticket} {t : Ticket} {p : Ticket → Bool}
    (hp : p t = true) : ∃ r, (l ++ [t]).find? p = some r := by
  rw [List.find?_append]
  cases h : l.find? p with
  | some r => exact ⟨r, by simp⟩
  | none => exact ⟨t, by simp [hp]⟩

/-- C3: a priority whose lowercase form is low, medium or high makes
`create_ticket` succeed and append exactly one ticket row, carrying status
"open" and the lowercased priority; no other ticket row and no account row
is touched. -/
theorem C3_valid_priority_inserts_one_ticket (customer_id : Int) (issue priority : String)
    (now : Nat) (st : Store)
    (h : pyLower priority ∈ (["low", "medium", "high"] : List String)) :
    (_register_new_ticket customer_id issue priority now st).1.success = true ∧
    (_register_new_ticket customer_id issue priority now st).2.tickets =
      st.tickets ++
        [{ ticket_id := st.nextTicketId, account_id := .i customer_id,
           description := .s issue, status := "open",
           priority_level := pyLower priority, submission_timestamp := now }] ∧
    (_register_new_ticket customer_id issue priority now st).2.accounts = st.accounts := by
  obtain ⟨r, hr⟩ := find?_append_singleton_pos
    (l := st.tickets)
    (t := { ticket_id := st.nextTicketId, account_id := .i customer_id,
            description := .s issue, status := "open",
            priority_level := pyLower priority, submission_timestamp := now })
    (p := fun x => x.ticket_id == st.nextTicketId) (by simp)
  simp only [List.mem_cons, List.not_mem_nil, or_false] at h
  simp [_register_new_ticket, insertTicketRow, h, hr]

theorem C3_witness :
    (_register_new_ticket 2 "Printer on fire" "HIGH" 11 (seedStore 0)).1.success = true ∧
    (_register_new_ticket 2 "Printer on fire" "HIGH" 11 (seedStore 0)).2.tickets =
      (seedStore 0).tickets ++
        [{ ticket_id := 8, account_id := .i 2, description := .s "Printer on fire",
           status := "open", priority_level := "high", submission_timestamp := 11 }] ∧
    (_register_new_ticket 2 "Printer on fire" "HIGH" 11 (seedStore 0)).2.accounts =
      (seedStore 0).accounts := by
  have := C3_valid_priority_inserts_one_ticket 2 "Printer on fire" "HIGH" 11 (seedStore 0)
    (by decide)
  simpa using this

/-- C2 as stated is refuted by the code: the failure message of an update
whose fields all miss the whitelist is "No valid fields provided for
update.", not the plain string "No valid fields provided". -/
theorem C2_counterexample :
    (∀ kv ∈ [("bogus", "x")], kv.1 ∉ valid_fields) ∧
    (_modify_customer_details 7 [("bogus", "x")] 5 (seedStore 0)).1.success = false ∧
    (_modify_customer_details 7 [("bogus", "x")] 5 (seedStore 0)).1.error ≠
      some "No valid fields provided" ∧
    (_modify_customer_details 7 [("bogus", "x")] 5 (seedStore 0)).1.error =
      some "No valid fields provided for update." := by decide

/-- C2 amended: when no key of `data` lies in the whitelist,
`update_customer` fails with the message "No valid fields provided for
update." and the store — every account row including its
`last_modified_timestamp` — is exactly what it was. -/
theorem C2_no_valid_fields_no_write (customer_id : Int) (data : List (String × String))
    (now : Nat) (st : Store) (h : ∀ kv ∈ data, kv.1 ∉ valid_fields) :
    _modify_customer_details customer_id data now st =
      ({ success := false, error := some "No valid fields provided for update." }, st) := by
  have hf : data.filter (fun kv => valid_fields.contains kv.1) = [] := by
    rw [List.filter_eq_nil_iff]
    intro kv hkv
    simpa using h kv hkv
  unfold _modify_customer_details
  rw [hf]
  simp

theorem C2_witness :
    _modify_customer_details 1 [("identifier", "99"), ("unknown_column", "y")] 5 (seedStore 0) =
      ({ success := false, error := some "No valid fields provided for update." },
        seedStore 0) :=
  C2_no_valid_fields_no_write 1 [("identifier", "99"), ("unknown_column", "y")] 5
    (seedStore 0) (by decide)

/-- C9: a payload `json.loads` cannot parse makes the adapter
`modify_customer_record` return the human-readable parsing-error string,
send no request to the RPC endpoint, and leave the stored state untouched. -/
theorem C9_parse_failure_sends_nothing
    (json_loads : String → Option (List (String × String))) (customer_id : Int)
    (update_payload : String) (st : Store) (now : Nat)
    (h : json_loads update_payload = none) :
    modify_customer_record json_loads customer_id update_payload st now =
      (("Parsing Error: The provided data for update must be a valid JSON string.", st),
        []) := by
  simp [modify_customer_record, h]

theorem C9_witness :
    modify_customer_record (fun _ => none) 1 "not json at all" (seedStore 0) 7 =
      (("Parsing Error: The provided data for update must be a valid JSON string.",
        seedStore 0), []) :=
  C9_parse_failure_sends_nothing (fun _ => none) 1 "not json at all" (seedStore 0) 7 rfl

lemma find?_eq_some_of_nodup (l : List Account) (cid : Int) (a : Account)
    (hnd : (l.map Account.identifier).Nodup) (ha : a ∈ l) (hid : a.identifier = cid) :
    l.find? (fun x => x.identifier == cid) = some a := by
  induction l with
  | nil => cases ha
  | cons b t ih =>
    rw [List.map_cons, List.nodup_cons] at hnd
    rcases List.mem_cons.mp ha with rfl | hmem
    · exact List.find?_cons_of_pos t (by simp [hid])
    · have hbne : b.identifier ≠ cid := by
        intro hEq
        have hmm : a.identifier ∈ t.map Account.identifier :=
          List.mem_map_of_mem Account.identifier hmem
        rw [hid, ← hEq] at hmm
        exact hnd.1 hmm
      rw [List.find?_cons_of_neg t (by simp [hbne])]
      exact ih hnd.2 hmem

/-- C7: in a well-formed store `get_customer` returns exactly the stored
row's current field values when the identifier exists, and a not-found
failure envelope — produced by total code, with no exception — when it does
not; the store is untouched either way. -/
theorem C7_get_customer_exact_or_not_found (customer_id : Int) (st : Store)
    (hWF : st.WF) :
    (∀ a ∈ st.accounts, a.identifier = customer_id →
      _fetch_customer_record customer_id st =
        ({ success := true, data := some (.account a) }, st)) ∧
    ((∀ a ∈ st.accounts, a.identifier ≠ customer_id) →
      _fetch_customer_record customer_id st =
        ({ success := false,
           error := some ("Account with ID " ++ toString customer_id ++ " not found") },
          st)) := by
  constructor
  · intro a ha hid
    have hfind := find?_eq_some_of_nodup st.accounts customer_id a hWF.1 ha hid
    simp [_fetch_customer_record, hfind]
  · intro hnone
    have hfind : st.accounts.find? (fun x => x.identifier == customer_id) = none := by
      rw [List.find?_eq_none]
      intro x hx
      simpa using hnone x hx
    simp [_fetch_customer_record, hfind]

theorem C7_witness :
    _fetch_customer_record 12345 (seedStore 0) =
      ({ success := true,
         data := some (.account ⟨12345, "Priya Patel (Premium)", "priya@example.com",
           "555-0999", "active", 0, 0⟩) }, seedStore 0) ∧
    _fetch_customer_record 999 (seedStore 0) =
      ({ success := false, error := some "Account with ID 999 not found" },
        seedStore 0) := by
  constructor
  · exact (C7_get_customer_exact_or_not_found 12345 (seedStore 0) (by decide)).1
      ⟨12345, "Priya Patel (Premium)", "priya@example.com", "555-0999", "active", 0, 0⟩
      (by decide) rfl
  · have := (C7_get_customer_exact_or_not_found 999 (seedStore 0) (by decide)).2
      (by decide)
    simpa using this

/-- C6: `get_customer_history` always succeeds, reads only, reports the
tickets of the account — a permutation of the filter of the ticket table —
sorted by submission timestamp in descending order, with `total_count` the
length of that list; an account without tickets gets the empty list and
count 0. -/
theorem C6_history_sorted_desc (customer_id : Int) (st : Store) :
    (_retrieve_ticket_history customer_id st).2 = st ∧
    (_retrieve_ticket_history customer_id st).1.success = true ∧
    ∃ rows,
      (_retrieve_ticket_history customer_id st).1.data = some (.tickets rows) ∧
      (_retrieve_ticket_history customer_id st).1.total_count = some rows.length ∧
      rows.Perm (st.tickets.filter (fun t => t.account_id == SqlVal.i customer_id)) ∧
      rows.Pairwise (fun a b => b.submission_timestamp ≤ a.submission_timestamp) ∧
      ((st.tickets.filter (fun t => t.account_id == SqlVal.i customer_id)) = [] →
        rows = [] ∧
          (_retrieve_ticket_history customer_id st).1.total_count = some 0) := by
  refine ⟨rfl, rfl, ?_⟩
  refine ⟨(st.tickets.filter (fun (t : Ticket) =>
    t.account_id == SqlVal.i customer_id)).mergeSort tsDesc, by rfl, by rfl, ?_, ?_, ?_⟩
  · exact List.mergeSort_perm _ _
  · have htrans : ∀ a b c : Ticket, tsDesc a b → tsDesc b c → tsDesc a c := by
      intro a b c hab hbc
      simp only [tsDesc, decide_eq_true_eq] at *
      exact le_trans hbc hab
    have htotal : ∀ a b : Ticket, tsDesc a b || tsDesc b a := by
      intro a b
      simp only [tsDesc, Bool.or_eq_true, decide_eq_true_eq]
      exact Nat.le_total _ _
    have hp := List.sorted_mergeSort htrans htotal
      (st.tickets.filter (fun t => t.account_id == SqlVal.i customer_id))
    exact hp.imp (fun h => by simpa [tsDesc] using h)
  · intro h
    rw [h]
    exact ⟨by simp, by simp [_retrieve_ticket_history, h]⟩

lemma foldl_setField_identifier (l : List (String × String)) (a : Account) :
    (l.foldl setField a).identifier = a.identifier := by
  induction l generalizing a with
  | nil => rfl
  | cons kv t ih =>
    rw [List.foldl_cons, ih]
    unfold setField
    split_ifs <;> rfl

lemma foldl_setField_creation (l : List (String × String)) (a : Account) :
    (l.foldl setField a).creation_timestamp = a.creation_timestamp := by
  induction l generalizing a with
  | nil => rfl
  | cons kv t ih =>
    rw [List.foldl_cons, ih]
    unfold setField
    split_ifs <;> rfl

lemma applyUpdates_identifier (a : Account) (l : List (String × String)) (now : Nat) :
    (applyUpdates a l now).identifier = a.identifier :=
  foldl_setField_identifier l a

lemma applyUpdates_creation (a : Account) (l : List (String × String)) (now : Nat) :
    (applyUpdates a l now).creation_timestamp = a.creation_timestamp :=
  foldl_setField_creation l a

lemma foldl_setField_proj_absent (proj : Account → String) (key : String)
    (hne : ∀ a kv, kv.1 ≠ key → proj (setField a kv) = proj a)
    (l : List (String × String)) (a : Account) (h : key ∉ l.map Prod.fst) :
    proj (l.foldl setField a) = proj a := by
  induction l generalizing a with
  | nil => rfl
  | cons kv t ih =>
    rw [List.map_cons, List.mem_cons] at h
    push_neg at h
    rw [List.foldl_cons, ih _ h.2, hne a kv (fun hEq => h.1 hEq.symm)]

lemma foldl_setField_proj_lookup (proj : Account → String) (key : String)
    (heq : ∀ a v, proj (setField a (key, v)) = v)
    (hne : ∀ a kv, kv.1 ≠ key → proj (setField a kv) = proj a)
    (l : List (String × String)) (a : Account) (hnd : (l.map Prod.fst).Nodup) :
    proj (l.foldl setField a) = (l.lookup key).getD (proj a) := by
  induction l generalizing a with
  | nil => rfl
  | cons kv t ih =>
    rw [List.map_cons, List.nodup_cons] at hnd
    obtain ⟨k, v⟩ := kv
    rw [List.foldl_cons]
    by_cases hk : k = key
    · subst hk
      rw [foldl_setField_proj_absent proj k hne t _ hnd.1, heq a v]
      simp [List.lookup_cons]
    · rw [ih _ hnd.2, hne a (k, v) hk]
      have hkk : (key == k) = false := by
        simpa using Ne.symm hk
      simp [List.lookup_cons, hkk]

lemma lookup_filter_whitelist (l : List (String × String)) (k : String)
    (hk : valid_fields.contains k = true) :
    (l.filter (fun kv => valid_fields.contains kv.1)).lookup k = l.lookup k := by
  induction l with
  | nil => rfl
  | cons kv t ih =>
    obtain ⟨k', v⟩ := kv
    by_cases hq : valid_fields.contains k' = true
    · rw [List.filter_cons_of_pos (by simpa using hq), List.lookup_cons, List.lookup_cons]
      cases hkk : k == k' with
      | true => rfl
      | false => exact ih
    · rw [List.filter_cons_of_neg (by simpa using hq)]
      have hkk : (k == k') = false := by
        apply beq_eq_false_iff_ne.mpr
        intro heqk
        rw [← heqk] at hq
        exact hq hk
      rw [List.lookup_cons, hkk]
      exact ih

lemma find?_map_identifier_preserving (l : List Account) (cid : Int)
    (g : Account → Account) (hg : ∀ x, (g x).identifier = x.identifier) :
    (l.map g).find? (fun x => x.identifier == cid) =
      (l.find? (fun x => x.identifier == cid)).map g := by
  have hpg : ((fun x : Account => x.identifier == cid) ∘ g) =
      (fun x : Account => x.identifier == cid) := by
    funext x
    simp [Function.comp, hg x]
  rw [List.find?_map, hpg]

/-- C5: a successful `update_customer` on an existing account applies
exactly the whitelisted fields present in `data`, sets
`last_modified_timestamp` to the current time (strictly above its previous
value, the clock having advanced), leaves `identifier`,
`creation_timestamp` and every whitelisted field absent from `data`
unchanged, and silently ignores non-whitelisted keys instead of failing. -/
theorem C5_update_applies_exactly_whitelisted_fields (st : Store) (a : Account)
    (customer_id : Int) (data : List (String × String)) (now : Nat)
    (hWF : st.WF) (ha : a ∈ st.accounts) (hid : a.identifier = customer_id)
    (hnd : (data.map Prod.fst).Nodup)
    (hsome : data.filter (fun kv => valid_fields.contains kv.1) ≠ [])
    (hnow : a.last_modified_timestamp < now) :
    ∃ r,
      (_modify_customer_details customer_id data now st).1 =
        { success := true, data := some (.account r) } ∧
      r.identifier = a.identifier ∧
      r.creation_timestamp = a.creation_timestamp ∧
      r.last_modified_timestamp = now ∧
      a.last_modified_timestamp < r.last_modified_timestamp ∧
      r.full_name = (data.lookup "full_name").getD a.full_name ∧
      r.contact_email = (data.lookup "contact_email").getD a.contact_email ∧
      r.contact_phone = (data.lookup "contact_phone").getD a.contact_phone ∧
      r.account_status = (data.lookup "account_status").getD a.account_status := by
  set updates := data.filter (fun kv => valid_fields.contains kv.1) with hupd
  have hne : updates.isEmpty = false := List.isEmpty_eq_false.mpr hsome
  have hsub : List.Sublist (updates.map Prod.fst) (data.map Prod.fst) := by
    rw [hupd]
    exact List.Sublist.map Prod.fst (List.filter_sublist data)
  have hndu : (updates.map Prod.fst).Nodup := List.Nodup.sublist hsub hnd
  have hg : ∀ x : Account,
      ((fun y : Account =>
        if y.identifier == customer_id then applyUpdates y updates now else y) x).identifier
        = x.identifier := by
    intro x
    by_cases hx : (x.identifier == customer_id) = true
    · show (if (x.identifier == customer_id) = true then applyUpdates x updates now
        else x).identifier = x.identifier
      rw [if_pos hx]
      exact applyUpdates_identifier x updates now
    · show (if (x.identifier == customer_id) = true then applyUpdates x updates now
        else x).identifier = x.identifier
      rw [if_neg hx]
  have hfind := find?_eq_some_of_nodup st.accounts customer_id a hWF.1 ha hid
  have hfind2 : (st.accounts.map (fun y : Account =>
      if y.identifier == customer_id then applyUpdates y updates now else y)).find?
        (fun x => x.identifier == customer_id) = some (applyUpdates a updates now) := by
    rw [find?_map_identifier_preserving st.accounts customer_id _ hg, hfind]
    simp [hid]
  refine ⟨applyUpdates a updates now, ?_, applyUpdates_identifier a updates now,
    applyUpdates_creation a updates now, rfl, hnow, ?_, ?_, ?_, ?_⟩
  · simp only [_modify_customer_details, ← hupd, hne, Bool.false_eq_true, if_false]
    rw [hfind2]
  · have h1 := foldl_setField_proj_lookup (fun x => x.full_name) "full_name"
      (fun a' v => by simp [setField])
      (fun a' kv hkv => by unfold setField; split_ifs <;> simp_all)
      updates a hndu
    simp only [] at h1
    show (updates.foldl setField a).full_name = _
    rw [h1, hupd, lookup_filter_whitelist data "full_name" (by decide)]
  · have h1 := foldl_setField_proj_lookup (fun x => x.contact_email) "contact_email"
      (fun a' v => by simp [setField])
      (fun a' kv hkv => by unfold setField; split_ifs <;> simp_all)
      updates a hndu
    simp only [] at h1
    show (updates.foldl setField a).contact_email = _
    rw [h1, hupd, lookup_filter_whitelist data "contact_email" (by decide)]
  · have h1 := foldl_setField_proj_lookup (fun x => x.contact_phone) "contact_phone"
      (fun a' v => by simp [setField])
      (fun a' kv hkv => by unfold setField; split_ifs <;> simp_all)
      updates a hndu
    simp only [] at h1
    show (updates.foldl setField a).contact_phone = _
    rw [h1, hupd, lookup_filter_whitelist data "contact_phone" (by decide)]
  · have h1 := foldl_setField_proj_lookup (fun x => x.account_status) "account_status"
      (fun a' v => by simp [setField])
      (fun a' kv hkv => by unfold setField; split_ifs <;> simp_all)
      updates a hndu
    simp only [] at h1
    show (updates.foldl setField a).account_status = _
    rw [h1, hupd, lookup_filter_whitelist data "account_status" (by decide)]

theorem C5_witness :
    ∃ r,
      (_modify_customer_details 1 [("contact_email", "new@email.com"), ("bogus", "z")] 5
        (seedStore 0)).1 =
        { success := true, data := some (.account r) } ∧
      r.identifier = (1 : Int) ∧
      r.creation_timestamp = 0 ∧
      r.last_modified_timestamp = 5 ∧
      (0 : Nat) < r.last_modified_timestamp ∧
      r.full_name = "Alice Premium" ∧
      r.contact_email = "new@email.com" ∧
      r.contact_phone = "111-111-1111" ∧
      r.account_status = "active" :=
  C5_update_applies_exactly_whitelisted_fields (seedStore 0)
    ⟨1, "Alice Premium", "alice@example.com", "111-111-1111", "active", 0, 0⟩ 1
    [("contact_email", "new@email.com"), ("bogus", "z")] 5
    (by decide) (by decide) rfl (by decide) (by decide) (by decide)

lemma bindKwargs_error (required allowed : List String)
    (kwargs : List (String × PyValue))
    (h : (∃ kv ∈ kwargs, kv.1 ∉ allowed) ∨ (∃ r ∈ required, r ∉ kwargs.map Prod.fst)) :
    ∃ msg, bindKwargs required allowed kwargs = .error ⟨"TypeError", msg⟩ := by
  unfold bindKwargs
  cases hfind : kwargs.find? (fun kv => !(allowed.contains kv.1)) with
  | some kv => exact ⟨_, rfl⟩
  | none =>
    cases hfind2 : required.find? (fun r => !((kwargs.map Prod.fst).contains r)) with
    | some r => exact ⟨_, rfl⟩
    | none =>
      exfalso
      rcases h with ⟨kv, hmem, hna⟩ | ⟨r, hmem, hnc⟩
      · have hh := List.find?_eq_none.mp hfind kv hmem
        simp at hh
        exact hna hh
      · have hh := List.find?_eq_none.mp hfind2 r hmem
        simp at hh
        obtain ⟨x, hx⟩ := hh
        exact hnc (List.mem_map_of_mem Prod.fst hx)

lemma call_handler_of_exec (tool : String) (params : List (String × PyValue))
    (st : Store) (now : Nat)
    (hcol : params.find? (fun kv => kv.1 == "operation_name" || kv.1 == "self") = none) :
    call_operation_handler (some ⟨tool, params⟩) st now =
      ({ status := 200, body := (execute_operation tool params st now).1 },
        (execute_operation tool params st now).2) := by
  simp only [call_operation_handler, hcol]

lemma execute_operation_of_error (name : String) (handler : DynHandler)
    (kwargs : List (String × PyValue)) (st : Store) (now : Nat) (e : PyExc)
    (hop : operations.lookup name = some handler)
    (herr : handler kwargs st now = .error e) :
    execute_operation name kwargs st now =
      ({ success := false,
         error := some ("Operation execution failed: " ++ e.kind ++ " - " ++ e.msg) },
        st) := by
  simp [execute_operation, hop, herr]

/-- C10 as stated is refuted: the params key `operation_name` is an
unexpected key for `get_customer`, yet the `TypeError` fires at the
dispatcher call `data_service.execute_operation(op_name, **op_params)`
inside the route handler's `try`, so the endpoint answers HTTP 400
"Invalid request format: ...", never the claimed HTTP 200 TypeError
envelope. -/
theorem C10_counterexample :
    (call_operation_handler
        (some ⟨"get_customer", [("operation_name", PyValue.int 5)]⟩)
        (seedStore 0) 0).1.status = 400 ∧
    ¬ ∃ msg : String,
        call_operation_handler
            (some ⟨"get_customer", [("operation_name", PyValue.int 5)]⟩) (seedStore 0) 0 =
          ({ status := 200,
             body := { success := false,
                       error := some ("Operation execution failed: TypeError - " ++ msg) } },
            seedStore 0) := by
  constructor
  · rfl
  · rintro ⟨msg, hmsg⟩
    have h2 := congrArg (fun p : HttpResponse × Store => p.1.status) hmsg
    simp only [] at h2
    have h400 : (call_operation_handler
        (some ⟨"get_customer", [("operation_name", PyValue.int 5)]⟩)
        (seedStore 0) 0).1.status = 400 := rfl
    rw [h2] at h400
    exact absurd h400 (by decide)

/-- C10 (amended): a recognized operation invoked through `POST /call` with
parameter keys that do not match the handler's signature — an unexpected
key or a missing required one — none of which collides with an argument of
the dispatcher call itself (`operation_name`, `self`), is answered with
HTTP 200 carrying the TypeError execution-failure envelope, and no store
write happens. -/
theorem C10_kwarg_mismatch_yields_typeerror_envelope (name : String)
    (kwargs : List (String × PyValue)) (st : Store) (now : Nat)
    (hname : name ∈ opNames)
    (hkeys : ∀ kv ∈ kwargs, kv.1 ≠ "operation_name" ∧ kv.1 ≠ "self")
    (hmm : (∃ kv ∈ kwargs, kv.1 ∉ allowedParams name) ∨
           (∃ r ∈ requiredParams name, r ∉ kwargs.map Prod.fst)) :
    ∃ msg,
      call_operation_handler (some ⟨name, kwargs⟩) st now =
        ({ status := 200,
           body := { success := false,
                     error := some ("Operation execution failed: TypeError - " ++ msg) } },
          st) := by
  have hn : name = "get_customer" ∨ name = "list_customers" ∨ name = "update_customer" ∨
      name = "create_ticket" ∨ name = "get_customer_history" := by
    simpa [opNames, operations] using hname
  rcases hn with rfl | rfl | rfl | rfl | rfl
  · obtain ⟨msg, hbk⟩ := bindKwargs_error ["customer_id"] ["customer_id"] kwargs hmm
    have hh : dynGetCustomer kwargs st now = .error ⟨"TypeError", msg⟩ := by
      unfold dynGetCustomer
      rw [hbk]
    refine ⟨msg, ?_⟩
    have hexec := execute_operation_of_error "get_customer" dynGetCustomer kwargs st now
      ⟨"TypeError", msg⟩ rfl hh
    rw [call_handler_of_exec _ _ _ _ (find?_collision_eq_none kwargs hkeys), hexec]
    rfl
  · obtain ⟨msg, hbk⟩ := bindKwargs_error [] ["status", "limit"] kwargs hmm
    have hh : dynListCustomers kwargs st now = .error ⟨"TypeError", msg⟩ := by
      unfold dynListCustomers
      rw [hbk]
    refine ⟨msg, ?_⟩
    have hexec := execute_operation_of_error "list_customers" dynListCustomers kwargs st now
      ⟨"TypeError", msg⟩ rfl hh
    rw [call_handler_of_exec _ _ _ _ (find?_collision_eq_none kwargs hkeys), hexec]
    rfl
  · obtain ⟨msg, hbk⟩ := bindKwargs_error ["customer_id", "data"] ["customer_id", "data"]
      kwargs hmm
    have hh : dynUpdateCustomer kwargs st now = .error ⟨"TypeError", msg⟩ := by
      unfold dynUpdateCustomer
      rw [hbk]
    refine ⟨msg, ?_⟩
    have hexec := execute_operation_of_error "update_customer" dynUpdateCustomer kwargs st now
      ⟨"TypeError", msg⟩ rfl hh
    rw [call_handler_of_exec _ _ _ _ (find?_collision_eq_none kwargs hkeys), hexec]
    rfl
  · obtain ⟨msg, hbk⟩ := bindKwargs_error ["customer_id", "issue"]
      ["customer_id", "issue", "priority"] kwargs hmm
    have hh : dynCreateTicket kwargs st now = .error ⟨"TypeError", msg⟩ := by
      unfold dynCreateTicket
      rw [hbk]
    refine ⟨msg, ?_⟩
    have hexec := execute_operation_of_error "create_ticket" dynCreateTicket kwargs st now
      ⟨"TypeError", msg⟩ rfl hh
    rw [call_handler_of_exec _ _ _ _ (find?_collision_eq_none kwargs hkeys), hexec]
    rfl
  · obtain ⟨msg, hbk⟩ := bindKwargs_error ["customer_id"] ["customer_id"] kwargs hmm
    have hh : dynGetCustomerHistory kwargs st now = .error ⟨"TypeError", msg⟩ := by
      unfold dynGetCustomerHistory
      rw [hbk]
    refine ⟨msg, ?_⟩
    have hexec := execute_operation_of_error "get_customer_history" dynGetCustomerHistory kwargs st now
      ⟨"TypeError", msg⟩ rfl hh
    rw [call_handler_of_exec _ _ _ _ (find?_collision_eq_none kwargs hkeys), hexec]
    rfl

theorem C10_witness :
    ∃ msg,
      call_operation_handler
        (some ⟨"create_ticket", [("bogus", PyValue.int 1)]⟩) (seedStore 0) 0 =
        ({ status := 200,
           body := { success := false,
                     error := some ("Operation execution failed: TypeError - " ++ msg) } },
          seedStore 0) :=
  C10_kwarg_mismatch_yields_typeerror_envelope "create_ticket"
    [("bogus", PyValue.int 1)] (seedStore 0) 0 (by decide) (by decide)
    (Or.inl ⟨("bogus", PyValue.int 1), by decide, by decide⟩)
